import Mathlib

/-!
Verification development for the chatbot flow-builder repository.
The data model and the operations are translated from
src/store/flowStore.ts and the editor controller component
(canConnect, handleConnect, handleSave).
-/

namespace FlowBuilder

/-- The whitespace characters stripped by the JS string trim method
(restricted to the ASCII whitespace characters). -/
def isJsSpace (c : Char) : Bool :=
  c == ' ' || c == '\t' || c == '\n' || c == '\r'

/-- The JS string trim method: strip leading and trailing whitespace. -/
def jsTrim (s : String) : String :=
  ⟨(((s.data.dropWhile isJsSpace).reverse.dropWhile isJsSpace).reverse)⟩

/-- JS truthiness of a nullable string value: null and the empty string are
falsy, every other string is truthy. -/
def strTruthy : Option String → Bool
  | none => false
  | some s => s != ""

/-- TextMessageNodeData from src/store/flowStore.ts. -/
structure TextMessageNodeData where
  content : String
  deriving DecidableEq

/-- Partial TextMessageNodeData: each field may be absent. -/
structure PartialTextMessageNodeData where
  content : Option String := none
  deriving DecidableEq

/-- 2-D canvas position of a node. -/
structure XYPosition where
  x : Int
  y : Int
  deriving DecidableEq

/-- A flow node: identifier, type tag, position and data payload. -/
structure Node where
  id : String
  type : String
  position : XYPosition
  data : TextMessageNodeData
  deriving DecidableEq

/-- Presentation style of an edge (stroke colour and width). -/
structure EdgeStyle where
  stroke : String
  strokeWidth : Nat
  deriving DecidableEq

/-- A flow edge: identifier, source and target node ids, optional handles,
and presentation metadata. -/
structure Edge where
  id : String
  source : String
  target : String
  sourceHandle : Option String := none
  targetHandle : Option String := none
  type : Option String := none
  markerEnd : Option String := none
  style : Option EdgeStyle := none
  deriving DecidableEq

/-- A candidate connection as reported by the rendering surface; every
endpoint is nullable. -/
structure Connection where
  source : Option String
  target : Option String
  sourceHandle : Option String
  targetHandle : Option String
  deriving DecidableEq

/-- The flow store state: nodes, edges and the current selection. -/
structure FlowState where
  nodes : List Node
  edges : List Edge
  selectedNodeId : Option String
  deriving DecidableEq

/-- initialNodes from src/store/flowStore.ts. -/
def initialNodes : List Node :=
  [{ id := "node-1", type := "textMessage", position := { x := 250, y := 80 },
     data := { content := "Hello! How can I help you today?" } }]

/-- initialEdges from src/store/flowStore.ts. -/
def initialEdges : List Edge := []

/-- The store state at startup. -/
def initialState : FlowState :=
  { nodes := initialNodes, edges := initialEdges, selectedNodeId := none }

/-- setSelectedNodeId from src/store/flowStore.ts. -/
def setSelectedNodeId (st : FlowState) (nodeId : Option String) : FlowState :=
  { st with selectedNodeId := nodeId }

/-- addNode from src/store/flowStore.ts: append the node and select it. -/
def addNode (st : FlowState) (node : Node) : FlowState :=
  { st with nodes := st.nodes ++ [node], selectedNodeId := some node.id }

/-- The spread merge of a partial payload into a node data payload. -/
def mergeNodeData (old : TextMessageNodeData) (patch : PartialTextMessageNodeData) :
    TextMessageNodeData :=
  match patch.content with
  | none => old
  | some c => { content := c }

/-- updateNodeData from src/store/flowStore.ts: map over the nodes, merging
the patch into every node whose id matches. -/
def updateNodeData (st : FlowState) (nodeId : String) (patch : PartialTextMessageNodeData) :
    FlowState :=
  { st with nodes := st.nodes.map fun node =>
      if node.id = nodeId then { node with data := mergeNodeData node.data patch } else node }

/-- Modelled from the spec: the store addEdge delegates to the reactflow
library helper, whose source is not part of this repository. Per the spec it
inserts the new edge into the edge collection with no dedup check of its own
beyond what the caller already performed during connection validation. -/
def addReactFlowEdge (edge : Edge) (edges : List Edge) : List Edge :=
  edges ++ [edge]

/-- addEdge from src/store/flowStore.ts. -/
def addEdge (st : FlowState) (edge : Edge) : FlowState :=
  { st with edges := addReactFlowEdge edge st.edges }

/-- The predicate of the some-call inside canConnect: an existing edge leaves
the same source node, and either the candidate carries no source handle or
the edge uses the same source handle. -/
def conflictsWith (connection : Connection) (edge : Edge) : Bool :=
  (some edge.source == connection.source) &&
  (!(strTruthy connection.sourceHandle) || edge.sourceHandle == connection.sourceHandle)

/-- canConnect from the editor controller. -/
def canConnect (edges : List Edge) (connection : Connection) : Bool :=
  if !(strTruthy connection.source) then
    false
  else if edges.any (conflictsWith connection) then
    false
  else if connection.source == connection.target then
    false
  else
    true

/-- A transient user notification. -/
inductive Toast where
  | error (message : String)
  | success (message : String)
  deriving DecidableEq

/-- The warning surfaced when a connect gesture is rejected. -/
def connectionWarning : String := "Each message can branch to only one next step."

/-- The edge synthesized by handleConnect for an accepted connection:
generated id, the connection endpoints and handles, and fixed styling. -/
def newEdgeOf (freshId : String) (connection : Connection) : Edge :=
  { id := freshId,
    source := connection.source.getD "",
    target := connection.target.getD "",
    sourceHandle := connection.sourceHandle,
    targetHandle := connection.targetHandle,
    type := some "smoothstep",
    markerEnd := some "ArrowClosed",
    style := some { stroke := "#6366f1", strokeWidth := 2 } }

/-- handleConnect from the editor controller. freshId stands for the id
produced by the platform random-UUID generator (or its timestamp fallback). -/
def handleConnect (st : FlowState) (connection : Connection) (freshId : String) :
    FlowState × Option Toast :=
  if !(canConnect st.edges connection) then
    (st, some (Toast.error connectionWarning))
  else if !(strTruthy connection.source) || !(strTruthy connection.target) then
    (st, none)
  else
    (addEdge st (newEdgeOf freshId connection), none)

/-- The three save rejection messages and the success message. -/
def saveErrorEmpty : String := "Add at least one node before saving."

/-- Rejection message of the start-node check. -/
def saveErrorStart : String := "Only one starting node is allowed. Connect your flow before saving."

/-- Rejection message of the content check. -/
def saveErrorContent : String := "Every node needs message content before saving."

/-- Success confirmation message of the save action. -/
def saveSuccessMsg : String := "Flow saved successfully!"

/-- The outcome of a save attempt: a rejection with a user-facing message, or
a success confirmation handing off the {nodes, edges} snapshot. -/
inductive SaveResult where
  | rejected (message : String)
  | saved (message : String) (nodes : List Node) (edges : List Edge)
  deriving DecidableEq

/-- The nodes with zero incoming edges, computed in handleSave by scanning the
edges for target == node.id. -/
def nodesWithoutIncomingEdge (st : FlowState) : List Node :=
  st.nodes.filter fun node => !(st.edges.any fun edge => edge.target == node.id)

/-- The nodes whose content is empty or blank after trimming, computed in
handleSave. -/
def nodesWithoutMessage (st : FlowState) : List Node :=
  st.nodes.filter fun node => (node.data.content == "") || (jsTrim node.data.content == "")

/-- handleSave from the editor controller: three checks run in order with
early returns; the handler never writes to the store, so the state component
of the result is always the input state. -/
def handleSave (st : FlowState) : FlowState × SaveResult :=
  if st.nodes.length = 0 then
    (st, SaveResult.rejected saveErrorEmpty)
  else if (nodesWithoutIncomingEdge st).length > 1 then
    (st, SaveResult.rejected saveErrorStart)
  else if (nodesWithoutMessage st).length > 0 then
    (st, SaveResult.rejected saveErrorContent)
  else
    (st, SaveResult.saved saveSuccessMsg st.nodes st.edges)

/-! Concrete fixtures used by counterexamples and witnesses. -/

/-- A node with id a and non-blank content. -/
def nodeA : Node :=
  { id := "a", type := "textMessage", position := { x := 0, y := 0 },
    data := { content := "hello" } }

/-- A node with id b and non-blank content. -/
def nodeB : Node :=
  { id := "b", type := "textMessage", position := { x := 100, y := 0 },
    data := { content := "world" } }

/-- An edge from a to b. -/
def edgeAB : Edge := { id := "e1", source := "a", target := "b" }

/-- An edge from b to a. -/
def edgeBA : Edge := { id := "e2", source := "b", target := "a" }

/-- A state with no nodes and no edges. -/
def emptyState : FlowState := { nodes := [], edges := [], selectedNodeId := none }

/-- A fully cyclic two-node state: every node has an incoming edge. -/
def cycleState : FlowState :=
  { nodes := [nodeA, nodeB], edges := [edgeAB, edgeBA], selectedNodeId := none }

/-- Two disconnected nodes: both have zero incoming edges. -/
def twoStartState : FlowState :=
  { nodes := [nodeA, nodeB], edges := [], selectedNodeId := none }

/-- A state in which node a already has an outgoing edge. -/
def oneEdgeState : FlowState :=
  { nodes := [nodeA, nodeB], edges := [edgeAB], selectedNodeId := none }

/-- A well-formed candidate connection from a to b. -/
def connAB : Connection :=
  { source := some "a", target := some "b", sourceHandle := none, targetHandle := none }

/-- A candidate connection from a to c. -/
def connAC : Connection :=
  { source := some "a", target := some "c", sourceHandle := none, targetHandle := none }

/-- A candidate connection with a source but no target. -/
def connNoTarget : Connection :=
  { source := some "a", target := none, sourceHandle := none, targetHandle := none }

/-! Helper lemmas bridging the executable definitions and their logical
descriptions. -/

lemma strTruthy_eq_false_iff (o : Option String) :
    strTruthy o = false ↔ (o = none ∨ o = some "") := by
  cases o with
  | none => simp [strTruthy]
  | some s => simp [strTruthy]

lemma strTruthy_iff (o : Option String) :
    strTruthy o = true ↔ ∃ s, o = some s ∧ s ≠ "" := by
  cases o with
  | none => simp [strTruthy]
  | some s => simp [strTruthy]

lemma conflictsWith_iff (c : Connection) (e : Edge) :
    conflictsWith c e = true ↔
      (some e.source = c.source ∧
        (c.sourceHandle = none ∨ c.sourceHandle = some "" ∨
          e.sourceHandle = c.sourceHandle)) := by
  unfold conflictsWith
  rw [Bool.and_eq_true, Bool.or_eq_true, beq_iff_eq, beq_iff_eq,
    Bool.not_eq_true', strTruthy_eq_false_iff, or_assoc]

lemma canConnect_eq_true_iff (edges : List Edge) (c : Connection) :
    canConnect edges c = true ↔
      (strTruthy c.source = true ∧
       (∀ e ∈ edges, conflictsWith c e = false) ∧
       c.source ≠ c.target) := by
  unfold canConnect
  split_ifs with h1 h2 h3
  · simp only [Bool.not_eq_true'] at h1
    simp [h1]
  · simp only [Bool.not_eq_true'] at h1
    rw [List.any_eq_true] at h2
    obtain ⟨e, he, hc⟩ := h2
    simp only [false_iff]
    rintro ⟨-, hall, -⟩
    rw [hall e he] at hc
    cases hc
  · rw [beq_iff_eq] at h3
    simp [h3]
  · simp only [Bool.not_eq_true'] at h1
    rw [Bool.not_eq_false] at h1
    rw [List.any_eq_true] at h2
    push_neg at h2
    rw [beq_iff_eq] at h3
    simp only [true_iff]
    refine ⟨h1, ?_, h3⟩
    intro e he
    rw [Bool.eq_false_iff]
    intro hc
    exact h2 e he hc

lemma canConnect_source_truthy (edges : List Edge) (c : Connection)
    (h : canConnect edges c = true) : strTruthy c.source = true :=
  ((canConnect_eq_true_iff edges c).mp h).1

lemma jsTrim_empty : jsTrim "" = "" := by decide

lemma handleSave_empty (st : FlowState) (h : st.nodes = []) :
    handleSave st = (st, SaveResult.rejected saveErrorEmpty) := by
  unfold handleSave
  rw [if_pos (by simp [h])]

lemma handleSave_start (st : FlowState) (h1 : st.nodes ≠ [])
    (h2 : 1 < (nodesWithoutIncomingEdge st).length) :
    handleSave st = (st, SaveResult.rejected saveErrorStart) := by
  unfold handleSave
  rw [if_neg (fun hh => h1 (List.length_eq_zero.mp hh)), if_pos h2]

lemma handleSave_content (st : FlowState) (h1 : st.nodes ≠ [])
    (h2 : ¬ 1 < (nodesWithoutIncomingEdge st).length)
    (h3 : nodesWithoutMessage st ≠ []) :
    handleSave st = (st, SaveResult.rejected saveErrorContent) := by
  unfold handleSave
  rw [if_neg (fun hh => h1 (List.length_eq_zero.mp hh)), if_neg h2,
    if_pos (List.length_pos.mpr h3)]

lemma handleSave_success (st : FlowState) (h1 : st.nodes ≠ [])
    (h2 : ¬ 1 < (nodesWithoutIncomingEdge st).length)
    (h3 : nodesWithoutMessage st = []) :
    handleSave st = (st, SaveResult.saved saveSuccessMsg st.nodes st.edges) := by
  unfold handleSave
  rw [if_neg (fun hh => h1 (List.length_eq_zero.mp hh)), if_neg h2,
    if_neg (by simp [h3])]

lemma nodesWithoutIncomingEdge_no_edges (nodes : List Node) (sel : Option String) :
    nodesWithoutIncomingEdge { nodes := nodes, edges := [], selectedNodeId := sel } = nodes := by
  unfold nodesWithoutIncomingEdge
  simp

lemma map_update_id (nodeId : String) (patch : PartialTextMessageNodeData)
    (l : List Node) (hall : ∀ n ∈ l, n.id ≠ nodeId) :
    (l.map fun node =>
      if node.id = nodeId then { node with data := mergeNodeData node.data patch }
      else node) = l := by
  induction l with
  | nil => rfl
  | cons a t ih =>
    rw [List.map_cons, if_neg (hall a (by simp)), ih (fun n hn => hall n (by simp [hn]))]

/-! Claim theorems. -/

/-- C6: the store addEdge operation inserts the supplied edge into the edge
collection; the result contains the new edge together with every previously
present edge. -/
theorem c6_addEdge_inserts (st : FlowState) (e : Edge) :
    (addEdge st e).edges = st.edges ++ [e] ∧
    e ∈ (addEdge st e).edges ∧
    ∀ x ∈ st.edges, x ∈ (addEdge st e).edges := by
  refine ⟨rfl, ?_, ?_⟩
  · simp [addEdge, addReactFlowEdge]
  · intro x hx
    simp [addEdge, addReactFlowEdge, hx]

/-- C6 witness: inserting an edge into the empty collection. -/
theorem c6_witness :
    (addEdge emptyState edgeAB).edges = emptyState.edges ++ [edgeAB] ∧
    edgeAB ∈ (addEdge emptyState edgeAB).edges ∧
    ∀ x ∈ emptyState.edges, x ∈ (addEdge emptyState edgeAB).edges :=
  c6_addEdge_inserts emptyState edgeAB

/-- C8: a save attempt never mutates the store state (the state component of
the result is the input state), and every rejected save carries one of the
three distinct validation error messages. -/
theorem c8_save_no_mutation (st : FlowState) :
    (handleSave st).1 = st ∧
    ∀ m, (handleSave st).2 = SaveResult.rejected m →
      m = saveErrorEmpty ∨ m = saveErrorStart ∨ m = saveErrorContent := by
  constructor
  · unfold handleSave
    split_ifs <;> rfl
  · intro m hm
    unfold handleSave at hm
    split_ifs at hm <;> simp_all

/-- C8 witness: the empty-flow rejection leaves the empty state unchanged. -/
theorem c8_witness :
    (handleSave emptyState).1 = emptyState ∧
    (saveErrorEmpty = saveErrorEmpty ∨ saveErrorEmpty = saveErrorStart ∨
      saveErrorEmpty = saveErrorContent) :=
  ⟨(c8_save_no_mutation emptyState).1,
   (c8_save_no_mutation emptyState).2 saveErrorEmpty (by decide)⟩

/-- C9: addNode appends the node at the end of the node collection, sets the
selection to the node id, and leaves the edge collection unchanged. -/
theorem c9_addNode_appends_and_selects (st : FlowState) (n : Node) :
    (addNode st n).nodes = st.nodes ++ [n] ∧
    (addNode st n).edges = st.edges ∧
    (addNode st n).selectedNodeId = some n.id :=
  ⟨rfl, rfl, rfl⟩

/-- C10: the initial store state holds exactly one node (id node-1, type
textMessage, position (250, 80), the greeting content), no edges and a null
selection, and an immediate save succeeds. -/
theorem c10_initial_state :
    initialState.nodes = [{ id := "node-1", type := "textMessage",
                            position := { x := 250, y := 80 },
                            data := { content := "Hello! How can I help you today?" } }] ∧
    initialState.edges = [] ∧
    initialState.selectedNodeId = none ∧
    handleSave initialState =
      (initialState, SaveResult.saved saveSuccessMsg initialState.nodes initialState.edges) :=
  ⟨rfl, rfl, rfl, by decide⟩

/-- C3: every connect gesture rejected by the validity predicate surfaces the
branch warning and performs no mutation: the state is returned unchanged. -/
theorem c3_reject_no_mutation (st : FlowState) (c : Connection) (freshId : String)
    (h : canConnect st.edges c = false) :
    handleConnect st c freshId = (st, some (Toast.error connectionWarning)) := by
  simp [handleConnect, h]

/-- C3 witness: a duplicate outgoing edge from node a is rejected without any
state change. -/
theorem c3_witness :
    handleConnect oneEdgeState connAC "edge-9" =
      (oneEdgeState, some (Toast.error connectionWarning)) :=
  c3_reject_no_mutation oneEdgeState connAC "edge-9" (by decide)

/-- C1 counterexample: in the fully cyclic two-node state no node has zero
incoming edges, so the number of start nodes is 0, which is not exactly one,
yet the save is not rejected: it succeeds. -/
theorem c1_counterexample :
    (nodesWithoutIncomingEdge cycleState).length = 0 ∧
    handleSave cycleState =
      (cycleState, SaveResult.saved saveSuccessMsg cycleState.nodes cycleState.edges) :=
  ⟨by decide, by decide⟩

/-- C1 (amended): the save is rejected with the start-node error precisely
when the node collection is non-empty and MORE THAN ONE node has zero
incoming edges; with zero or one such node the start check passes. On
rejection the result is exactly the start error, so the content check is not
reached. -/
theorem c1_start_rule (st : FlowState) :
    (handleSave st).2 = SaveResult.rejected saveErrorStart ↔
      (st.nodes ≠ [] ∧ 1 < (nodesWithoutIncomingEdge st).length) := by
  constructor
  · intro h
    by_cases h1 : st.nodes = []
    · rw [handleSave_empty st h1] at h
      exact absurd (SaveResult.rejected.inj h) (by decide)
    · refine ⟨h1, ?_⟩
      by_contra h2
      by_cases h3 : nodesWithoutMessage st = []
      · rw [handleSave_success st h1 h2 h3] at h
        cases h
      · rw [handleSave_content st h1 h2 h3] at h
        exact absurd (SaveResult.rejected.inj h) (by decide)
  · rintro ⟨h1, h2⟩
    rw [handleSave_start st h1 h2]

/-- C1 witness: two disconnected nodes give two start nodes and the save is
rejected with the start-node error. -/
theorem c1_witness :
    (handleSave twoStartState).2 = SaveResult.rejected saveErrorStart :=
  (c1_start_rule twoStartState).mpr ⟨by decide, by decide⟩

/-- C2: the connection-validity predicate accepts exactly when the candidate
has a truthy source endpoint, no edge already leaves the same source node via
the same source handle (a missing handle acting as the single implicit
handle), and the source differs from the target; moreover a self-loop is
rejected regardless of the edge collection. -/
theorem c2_canConnect_characterization (edges : List Edge) (c : Connection) :
    (canConnect edges c = true ↔
      ((∃ s, c.source = some s ∧ s ≠ "") ∧
       (∀ e ∈ edges, ¬(some e.source = c.source ∧
         (c.sourceHandle = none ∨ c.sourceHandle = some "" ∨
           e.sourceHandle = c.sourceHandle))) ∧
       c.source ≠ c.target)) ∧
    (∀ (s : String) (h1 h2 : Option String),
      canConnect edges { source := some s, target := some s,
                         sourceHandle := h1, targetHandle := h2 } = false) := by
  constructor
  · rw [canConnect_eq_true_iff]
    constructor
    · rintro ⟨hs, hall, hne⟩
      refine ⟨(strTruthy_iff c.source).mp hs, ?_, hne⟩
      intro e he hmatch
      rw [← conflictsWith_iff c e] at hmatch
      rw [hall e he] at hmatch
      cases hmatch
    · rintro ⟨hs, hall, hne⟩
      refine ⟨(strTruthy_iff c.source).mpr hs, ?_, hne⟩
      intro e he
      rw [Bool.eq_false_iff]
      intro hc
      exact hall e he ((conflictsWith_iff c e).mp hc)
  · intro s h1 h2
    unfold canConnect
    split_ifs with hA hB hC
    · rfl
    · rfl
    · rfl
    · exact absurd (by simp) hC

/-- C2 witness: the self-loop conjunct applied at a concrete connection and a
non-empty edge collection. -/
theorem c2_witness :
    canConnect [edgeAB] { source := some "a", target := some "a",
                          sourceHandle := none, targetHandle := none } = false :=
  (c2_canConnect_characterization [edgeAB] connAB).2 "a" none none

/-- C4: the save action runs its three checks in order, short-circuiting on
the first failure with a distinct error message, and when all checks pass it
emits the success confirmation with the current nodes and edges snapshot; in
particular a single node with non-blank content and no edges saves
successfully. -/
theorem c4_save_order (st : FlowState) :
    (st.nodes = [] → handleSave st = (st, SaveResult.rejected saveErrorEmpty)) ∧
    (st.nodes ≠ [] → 1 < (nodesWithoutIncomingEdge st).length →
      handleSave st = (st, SaveResult.rejected saveErrorStart)) ∧
    (st.nodes ≠ [] → ¬ 1 < (nodesWithoutIncomingEdge st).length →
      nodesWithoutMessage st ≠ [] →
      handleSave st = (st, SaveResult.rejected saveErrorContent)) ∧
    (st.nodes ≠ [] → ¬ 1 < (nodesWithoutIncomingEdge st).length →
      nodesWithoutMessage st = [] →
      handleSave st = (st, SaveResult.saved saveSuccessMsg st.nodes st.edges)) ∧
    (saveErrorEmpty ≠ saveErrorStart ∧ saveErrorEmpty ≠ saveErrorContent ∧
      saveErrorStart ≠ saveErrorContent) ∧
    (∀ (n : Node) (sel : Option String), jsTrim n.data.content ≠ "" →
      handleSave { nodes := [n], edges := [], selectedNodeId := sel } =
        ({ nodes := [n], edges := [], selectedNodeId := sel },
          SaveResult.saved saveSuccessMsg [n] [])) := by
  refine ⟨handleSave_empty st, handleSave_start st, handleSave_content st,
    handleSave_success st, by decide, ?_⟩
  intro n sel h
  have hc : n.data.content ≠ "" := by
    intro hc
    apply h
    rw [hc]
    exact jsTrim_empty
  have hmsg : nodesWithoutMessage { nodes := [n], edges := [], selectedNodeId := sel } = [] := by
    unfold nodesWithoutMessage
    simp [List.filter_cons, hc, h]
  have hstart : nodesWithoutIncomingEdge { nodes := [n], edges := [], selectedNodeId := sel } = [n] :=
    nodesWithoutIncomingEdge_no_edges [n] sel
  have := handleSave_success { nodes := [n], edges := [], selectedNodeId := sel }
    (by simp) (by rw [hstart]; simp) hmsg
  simpa using this

/-- C4 witness: the single-node success conjunct at a concrete node. -/
theorem c4_witness :
    handleSave { nodes := [nodeA], edges := [], selectedNodeId := none } =
      ({ nodes := [nodeA], edges := [], selectedNodeId := none },
        SaveResult.saved saveSuccessMsg [nodeA] []) :=
  (c4_save_order emptyState).2.2.2.2.2 nodeA none (by decide)

/-- C5 counterexample: the validity predicate accepts a connection that lacks
a target endpoint, yet the handler adds no edge and shows no warning: the
edge collection does not gain the synthesized edge. -/
theorem c5_counterexample :
    canConnect emptyState.edges connNoTarget = true ∧
    handleConnect emptyState connNoTarget "edge-1" = (emptyState, none) ∧
    (handleConnect emptyState connNoTarget "edge-1").1.edges = [] :=
  ⟨by decide, by decide, by decide⟩

/-- C5 (amended): for every connect gesture accepted by the validity
predicate whose target endpoint is ALSO present, the handler synthesizes a
new edge carrying the supplied fresh identifier, the connection endpoints and
handles, and the fixed visual styling, and adds it to the edge collection via
the store addEdge. -/
theorem c5_accept_adds (st : FlowState) (c : Connection) (freshId : String)
    (hAccept : canConnect st.edges c = true) (hTarget : strTruthy c.target = true) :
    handleConnect st c freshId = (addEdge st (newEdgeOf freshId c), none) ∧
    newEdgeOf freshId c ∈ (handleConnect st c freshId).1.edges ∧
    (newEdgeOf freshId c).id = freshId ∧
    some (newEdgeOf freshId c).source = c.source ∧
    some (newEdgeOf freshId c).target = c.target ∧
    (newEdgeOf freshId c).sourceHandle = c.sourceHandle ∧
    (newEdgeOf freshId c).targetHandle = c.targetHandle ∧
    (newEdgeOf freshId c).type = some "smoothstep" ∧
    (newEdgeOf freshId c).style = some { stroke := "#6366f1", strokeWidth := 2 } := by
  have hSource := canConnect_source_truthy st.edges c hAccept
  have heq : handleConnect st c freshId = (addEdge st (newEdgeOf freshId c), none) := by
    simp [handleConnect, hAccept, hSource, hTarget]
  refine ⟨heq, ?_, rfl, ?_, ?_, rfl, rfl, rfl, rfl⟩
  · rw [heq]
    simp [addEdge, addReactFlowEdge]
  · obtain ⟨s, hs, -⟩ := (strTruthy_iff c.source).mp hSource
    simp [newEdgeOf, hs]
  · obtain ⟨t, ht, -⟩ := (strTruthy_iff c.target).mp hTarget
    simp [newEdgeOf, ht]

/-- C5 witness: an accepted connection from a to b on the empty state adds
the synthesized edge. -/
theorem c5_witness :
    handleConnect emptyState connAB "edge-7" =
      (addEdge emptyState (newEdgeOf "edge-7" connAB), none) :=
  (c5_accept_adds emptyState connAB "edge-7" (by decide) (by decide)).1

/-- C7: updateNodeData merges the patch into the data payload of the node at
every position whose id matches, leaves every other node (id, type, position,
data) unchanged, leaves the edge collection and the selection unchanged, and
is a no-op when no node carries the given id. -/
theorem c7_updateNodeData_frame (st : FlowState) (nodeId : String)
    (patch : PartialTextMessageNodeData) :
    (updateNodeData st nodeId patch).edges = st.edges ∧
    (updateNodeData st nodeId patch).selectedNodeId = st.selectedNodeId ∧
    (updateNodeData st nodeId patch).nodes.length = st.nodes.length ∧
    (∀ (i : Nat) (n : Node), st.nodes[i]? = some n → n.id = nodeId →
      (updateNodeData st nodeId patch).nodes[i]? =
        some { n with data := mergeNodeData n.data patch }) ∧
    (∀ (i : Nat) (n : Node), st.nodes[i]? = some n → n.id ≠ nodeId →
      (updateNodeData st nodeId patch).nodes[i]? = some n) ∧
    ((∀ n ∈ st.nodes, n.id ≠ nodeId) → updateNodeData st nodeId patch = st) := by
  refine ⟨rfl, rfl, by simp [updateNodeData], ?_, ?_, ?_⟩
  · intro i n hi hid
    simp [updateNodeData, List.getElem?_map, hi, hid]
  · intro i n hi hid
    simp [updateNodeData, List.getElem?_map, hi, hid]
  · intro hall
    show { st with nodes := _ } = st
    rw [map_update_id nodeId patch st.nodes hall]

/-- C7 witness: patching node a in the cyclic state rewrites exactly the
first node and keeps the second, the edges and the selection. -/
theorem c7_witness :
    (updateNodeData cycleState "a" { content := some "hey" }).nodes[0]? =
      some { nodeA with data := mergeNodeData nodeA.data { content := some "hey" } } ∧
    (updateNodeData cycleState "a" { content := some "hey" }).nodes[1]? = some nodeB ∧
    (updateNodeData cycleState "a" { content := some "hey" }).edges = cycleState.edges :=
  ⟨(c7_updateNodeData_frame cycleState "a" { content := some "hey" }).2.2.2.1 0 nodeA
      (by decide) (by decide),
   (c7_updateNodeData_frame cycleState "a" { content := some "hey" }).2.2.2.2.1 1 nodeB
      (by decide) (by decide),
   (c7_updateNodeData_frame cycleState "a" { content := some "hey" }).1⟩

end FlowBuilder
